import Mathlib

/-!
# Shallow embedding of `django_filters/filters.py`

This file embeds the filter classes of `src/django_filters/filters.py` (an early
django-filter fork) in Lean and proves properties about them.

Modelling conventions:
* Python's dynamically-typed runtime values are embedded in the universal type `Value`
  (`None`, strings, ints, bools, dates, and lists/tuples).
* A Django model instance ("row") is an `Item`: an association list from attribute
  names to values.  A queryset is a `List Item`.
* Fallible Python code (exceptions) is embedded as `Except Err`.
* The Django ORM (`qs.filter(**kwargs)`, `Q` objects, `.distinct()`) is the external
  store collaborator of the specification (section 6); its vocabulary of lookup
  operators is the `QUERY_TERMS`-derived `LOOKUP_TYPES` list and its behaviour is
  embedded by `applyLookup` / `qsFilterKw` below.
* `datetime.today()` (a side effect) becomes an explicit `today : Date` parameter.
-/

namespace DF

/-- A dynamically-typed Python runtime value: `None`, `str`, `int`, `bool`,
`datetime.date`, or a `list`/`tuple` of values. -/
inductive Value where
  | null
  | str (s : String)
  | int (n : Int)
  | bool (b : Bool)
  | date (y m d : Nat)
  | list (vs : List Value)

mutual

/-- Decidable structural equality for `Value` (Lean cannot derive it for this
nested inductive). -/
def Value.decEq : (a b : Value) → Decidable (a = b)
  | .null, .null => isTrue rfl
  | .null, .str _ => isFalse (by intro h; exact Value.noConfusion h)
  | .null, .int _ => isFalse (by intro h; exact Value.noConfusion h)
  | .null, .bool _ => isFalse (by intro h; exact Value.noConfusion h)
  | .null, .date _ _ _ => isFalse (by intro h; exact Value.noConfusion h)
  | .null, .list _ => isFalse (by intro h; exact Value.noConfusion h)
  | .str _, .null => isFalse (by intro h; exact Value.noConfusion h)
  | .str x, .str y =>
    if h : x = y then isTrue (by rw [h])
    else isFalse (by intro hh; injection hh with h1; exact h h1)
  | .str _, .int _ => isFalse (by intro h; exact Value.noConfusion h)
  | .str _, .bool _ => isFalse (by intro h; exact Value.noConfusion h)
  | .str _, .date _ _ _ => isFalse (by intro h; exact Value.noConfusion h)
  | .str _, .list _ => isFalse (by intro h; exact Value.noConfusion h)
  | .int _, .null => isFalse (by intro h; exact Value.noConfusion h)
  | .int _, .str _ => isFalse (by intro h; exact Value.noConfusion h)
  | .int x, .int y =>
    if h : x = y then isTrue (by rw [h])
    else isFalse (by intro hh; injection hh with h1; exact h h1)
  | .int _, .bool _ => isFalse (by intro h; exact Value.noConfusion h)
  | .int _, .date _ _ _ => isFalse (by intro h; exact Value.noConfusion h)
  | .int _, .list _ => isFalse (by intro h; exact Value.noConfusion h)
  | .bool _, .null => isFalse (by intro h; exact Value.noConfusion h)
  | .bool _, .str _ => isFalse (by intro h; exact Value.noConfusion h)
  | .bool _, .int _ => isFalse (by intro h; exact Value.noConfusion h)
  | .bool x, .bool y =>
    if h : x = y then isTrue (by rw [h])
    else isFalse (by intro hh; injection hh with h1; exact h h1)
  | .bool _, .date _ _ _ => isFalse (by intro h; exact Value.noConfusion h)
  | .bool _, .list _ => isFalse (by intro h; exact Value.noConfusion h)
  | .date _ _ _, .null => isFalse (by intro h; exact Value.noConfusion h)
  | .date _ _ _, .str _ => isFalse (by intro h; exact Value.noConfusion h)
  | .date _ _ _, .int _ => isFalse (by intro h; exact Value.noConfusion h)
  | .date _ _ _, .bool _ => isFalse (by intro h; exact Value.noConfusion h)
  | .date y m d, .date y2 m2 d2 =>
    if h : y = y2 ∧ m = m2 ∧ d = d2 then
      isTrue (by obtain ⟨rfl, rfl, rfl⟩ := h; rfl)
    else isFalse (by intro hh; injection hh with h1 h2 h3; exact h ⟨h1, h2, h3⟩)
  | .date _ _ _, .list _ => isFalse (by intro h; exact Value.noConfusion h)
  | .list _, .null => isFalse (by intro h; exact Value.noConfusion h)
  | .list _, .str _ => isFalse (by intro h; exact Value.noConfusion h)
  | .list _, .int _ => isFalse (by intro h; exact Value.noConfusion h)
  | .list _, .bool _ => isFalse (by intro h; exact Value.noConfusion h)
  | .list _, .date _ _ _ => isFalse (by intro h; exact Value.noConfusion h)
  | .list xs, .list ys =>
    match Value.decEqList xs ys with
    | isTrue h => isTrue (by rw [h])
    | isFalse h => isFalse (by intro hh; injection hh with h1; exact h h1)

/-- Decidable equality for lists of `Value`, mutually with `Value.decEq`. -/
def Value.decEqList : (as bs : List Value) → Decidable (as = bs)
  | [], [] => isTrue rfl
  | [], _ :: _ => isFalse (by intro h; exact List.noConfusion h)
  | _ :: _, [] => isFalse (by intro h; exact List.noConfusion h)
  | a :: as, b :: bs =>
    match Value.decEq a b, Value.decEqList as bs with
    | isTrue h1, isTrue h2 => isTrue (by rw [h1, h2])
    | isFalse h1, _ => isFalse (by intro hh; injection hh with x y; exact h1 x)
    | _, isFalse h2 => isFalse (by intro hh; injection hh with x y; exact h2 y)

end

instance : DecidableEq Value := Value.decEq

/-- Python truthiness of a runtime value (`bool(value)`): `None`, `''`, `0`,
`False` and empty sequences are falsy. -/
def truthy : Value → Bool
  | .null => false
  | .str s => s ≠ ""
  | .int n => n ≠ 0
  | .bool b => b
  | .date _ _ _ => true
  | .list vs => !vs.isEmpty

/-- Whether a value is a Python `list`/`tuple` (the `isinstance(value, (list, tuple))`
test in `Filter.filter`). -/
def Value.isList : Value → Bool
  | .list _ => true
  | _ => false

/-- Python's value equality as the store's `exact` match: structural equality of the
embedded values (the store's notion of equality on stored attribute values). -/
def pyEq (a b : Value) : Bool := decide (a = b)

/-- A Python exception class, as a result tag. -/
inductive Err where
  | indexError
  | typeError
  | keyError
  | valueError
  | fieldError
  | validationError
deriving DecidableEq

/-- A model instance ("row"): attribute name to value.  `getAttr` is attribute
access, `Value.null` when the attribute is missing. -/
abbrev Item : Type := List (String × Value)

/-- Decidable equality on embedded results, so concrete runs can be checked by
`decide`. -/
instance {ε α : Type} [DecidableEq ε] [DecidableEq α] : DecidableEq (Except ε α) :=
  fun a b =>
    match a, b with
    | .ok x, .ok y =>
      if h : x = y then isTrue (by rw [h])
      else isFalse (by intro hh; injection hh with h1; exact h h1)
    | .error x, .error y =>
      if h : x = y then isTrue (by rw [h])
      else isFalse (by intro hh; injection hh with h1; exact h h1)
    | .ok _, .error _ => isFalse (by intro h; exact Except.noConfusion h)
    | .error _, .ok _ => isFalse (by intro h; exact Except.noConfusion h)

/-- Attribute access on a row. -/
def getAttr (it : Item) (name : String) : Value :=
  match it.find? (fun p => p.1 == name) with
  | some p => p.2
  | none => Value.null

/-- A calendar date, standing in for `datetime.date`/`datetime.today()`. -/
structure Date where
  year : Nat
  month : Nat
  day : Nat
deriving DecidableEq

/-- Days since 0000-03-01 in the proleptic Gregorian calendar (civil-from-days
construction, used to embed `timedelta` arithmetic). -/
def daysFromCivil (y m d : Nat) : Nat :=
  let y' := if m ≤ 2 then y - 1 else y
  let era := y' / 400
  let yoe := y' % 400
  let mp := if m > 2 then m - 3 else m + 9
  let doy := (153 * mp + 2) / 5 + (d - 1)
  let doe := yoe * 365 + yoe / 4 - yoe / 100 + doy
  era * 146097 + doe

/-- Inverse of `daysFromCivil`. -/
def civilFromDays (z : Nat) : Date :=
  let era := z / 146097
  let doe := z % 146097
  let yoe := (doe - doe / 1460 + doe / 36524 - doe / 146096) / 365
  let y := yoe + era * 400
  let doy := doe - (365 * yoe + yoe / 4 - yoe / 100)
  let mp := (5 * doy + 2) / 153
  let d := doy - (153 * mp + 2) / 5 + 1
  let m := if mp < 10 then mp + 3 else mp - 9
  if m ≤ 2 then ⟨y + 1, m, d⟩ else ⟨y, m, d⟩

/-- `date ± timedelta(days=n)`. -/
def dateAddDays (dt : Date) (n : Int) : Date :=
  civilFromDays ((Int.ofNat (daysFromCivil dt.year dt.month dt.day) + n).toNat)

/-- Left-pad a numeral with zeros. -/
def padNum (w n : Nat) : String :=
  let s := toString n
  (List.replicate (w - s.length) '0').asString ++ s

/-- `strftime('%Y-%m-%d')`. -/
def isoOfDate (dt : Date) : String :=
  padNum 4 dt.year ++ "-" ++ padNum 2 dt.month ++ "-" ++ padNum 2 dt.day

mutual

/-- Python `str(value)`.  Only the string case is exercised by the source code paths
under study (`str(value[1])` on the lookup name); the remaining cases are a plain
rendering. -/
def pyStr : Value → String
  | .null => "None"
  | .str s => s
  | .int n => toString n
  | .bool b => if b then "True" else "False"
  | .date y m d => isoOfDate ⟨y, m, d⟩
  | .list vs => "[" ++ pyStrList vs ++ "]"

/-- Comma-joined rendering of a list of values. -/
def pyStrList : List Value → String
  | [] => ""
  | [v] => pyStr v
  | v :: rest => pyStr v ++ ", " ++ pyStrList rest

end

/-- Lexicographic strict order on character lists (the store's text ordering). -/
def charListLt : List Char → List Char → Bool
  | _, [] => false
  | [], _ :: _ => true
  | a :: as, b :: bs => a.toNat < b.toNat || (a.toNat == b.toNat && charListLt as bs)

/-- Lexicographic order on character lists, non-strict. -/
def charListLe : List Char → List Char → Bool
  | [], _ => true
  | _ :: _, [] => false
  | a :: as, b :: bs => a.toNat < b.toNat || (a.toNat == b.toNat && charListLe as bs)

/-- Parse a string as a Python `int(...)` literal: optional surrounding whitespace,
optional sign, at least one digit. -/
def parseIntStr (s : String) : Option Int :=
  let t := ((s.data.dropWhile Char.isWhitespace).reverse.dropWhile Char.isWhitespace).reverse
  let signCore : Bool × List Char :=
    match t with
    | '-' :: rest => (true, rest)
    | '+' :: rest => (false, rest)
    | _ => (false, t)
  let core := signCore.2
  if core ≠ [] && core.all Char.isDigit then
    let n : Nat := core.foldl (fun acc c => acc * 10 + (c.toNat - '0'.toNat)) 0
    some (if signCore.1 then -(n : Int) else (n : Int))
  else none

/-- Python `int(value)`: succeeds on ints, bools and numeric strings, raises
`ValueError` on non-numeric strings and `TypeError` on `None`/sequences/dates. -/
def pyInt : Value → Except Err Int
  | .int n => .ok n
  | .bool b => .ok (if b then 1 else 0)
  | .str s =>
    match parseIntStr s with
    | some n => .ok n
    | none => .error Err.valueError
  | .null => .error Err.typeError
  | .list _ => .error Err.typeError
  | .date _ _ _ => .error Err.typeError

/-- The store's ordering on stored values, as used by comparison lookups: numeric on
ints, lexicographic on strings, calendar order on dates; a date bound supplied as an
ISO-formatted string (as the `DateRangeFilter` rules do) compares against date
attributes through its ISO rendering.  Values of incomparable kinds do not match. -/
def vle : Value → Value → Bool
  | .int a, .int b => decide (a ≤ b)
  | .str a, .str b => charListLe a.data b.data
  | .date y m d, .date y2 m2 d2 => decide (daysFromCivil y m d ≤ daysFromCivil y2 m2 d2)
  | .date y m d, .str s => charListLe (isoOfDate ⟨y, m, d⟩).data s.data
  | .str s, .date y m d => charListLe s.data (isoOfDate ⟨y, m, d⟩).data
  | _, _ => false

/-- Strict version of `vle`. -/
def vlt : Value → Value → Bool
  | .int a, .int b => decide (a < b)
  | .str a, .str b => charListLt a.data b.data
  | .date y m d, .date y2 m2 d2 => decide (daysFromCivil y m d < daysFromCivil y2 m2 d2)
  | .date y m d, .str s => charListLt (isoOfDate ⟨y, m, d⟩).data s.data
  | .str s, .date y m d => charListLt s.data (isoOfDate ⟨y, m, d⟩).data
  | _, _ => false

/-- `LOOKUP_TYPES = sorted(QUERY_TERMS.keys())`: the statically known lookup-operator
vocabulary.  `QUERY_TERMS` itself belongs to the store collaborator (Django's ORM,
spec section 6: the vocabulary is store-defined); this is its classic key set,
sorted as in the source. -/
def LOOKUP_TYPES : List String :=
  ["contains", "day", "endswith", "exact", "gt", "gte", "icontains", "iendswith",
   "iexact", "in", "iregex", "isnull", "istartswith", "lt", "lte", "month", "range",
   "regex", "search", "startswith", "week_day", "year"]

/-- Both operands are strings and `f` holds of them. -/
def strPair (a b : Value) (f : String → String → Bool) : Bool :=
  match a, b with
  | .str x, .str y => f x y
  | _, _ => false

/-- Modelled from the spec: the store collaborator's predicate semantics for one
lookup operator (`buildPredicate`, section 6) applied to one stored attribute value.
The operators the source exercises (`exact`, `range`, `gte`, `lt`, `year`, `month`,
`day`, and the comparison/membership family) are embedded directly; the store-opaque
text-search operators (`search`, `regex`, `iregex`) are rendered as substring
containment, which no claim relies on. -/
def applyLookup (lookup : String) (attr v : Value) : Bool :=
  match lookup with
  | "exact" => pyEq attr v
  | "iexact" =>
    match attr, v with
    | .str a, .str b => a.toLower == b.toLower
    | _, _ => pyEq attr v
  | "contains" => strPair attr v (fun a b => decide (b.data <:+: a.data))
  | "icontains" => strPair attr v (fun a b => decide (b.toLower.data <:+: a.toLower.data))
  | "gt" => vlt v attr
  | "gte" => vle v attr
  | "lt" => vlt attr v
  | "lte" => vle attr v
  | "in" =>
    match v with
    | .list vs => vs.any (fun x => pyEq attr x)
    | _ => false
  | "startswith" => strPair attr v (fun a b => b.isPrefixOf a)
  | "istartswith" => strPair attr v (fun a b => b.toLower.isPrefixOf a.toLower)
  | "endswith" => strPair attr v (fun a b => b.data.isSuffixOf a.data)
  | "iendswith" => strPair attr v (fun a b => b.toLower.data.isSuffixOf a.toLower.data)
  | "range" =>
    match v with
    | .list [lo, hi] => vle lo attr && vle attr hi
    | _ => false
  | "year" =>
    match attr, v with
    | .date y _ _, .int n => decide ((y : Int) = n)
    | _, _ => false
  | "month" =>
    match attr, v with
    | .date _ m _, .int n => decide ((m : Int) = n)
    | _, _ => false
  | "day" =>
    match attr, v with
    | .date _ _ d, .int n => decide ((d : Int) = n)
    | _, _ => false
  | "week_day" =>
    match attr, v with
    | .date y m d, .int n => decide (((daysFromCivil y m d + 3) % 7 + 1 : Int) = n)
    | _, _ => false
  | "isnull" => pyEq attr Value.null == truthy v
  | "search" => strPair attr v (fun a b => decide (b.data <:+: a.data))
  | "regex" => strPair attr v (fun a b => decide (b.data <:+: a.data))
  | "iregex" => strPair attr v (fun a b => decide (b.toLower.data <:+: a.toLower.data))
  | _ => false

/-- Modelled from the spec: the store collaborator's `qs.filter(**kwargs)` (section 6
`filter`/`buildPredicate`): each keyword is an (attribute, operator, value) triple;
an operator outside the vocabulary is a configuration error raised at the call
(never silently ignored); otherwise the kept rows are those matching every keyword. -/
def qsFilterKw (qs : List Item) (kwargs : List (String × String × Value)) :
    Except Err (List Item) :=
  if kwargs.all (fun k => LOOKUP_TYPES.contains k.2.1) then
    .ok (qs.filter (fun it => kwargs.all (fun k => applyLookup k.2.1 (getAttr it k.1) k.2.2)))
  else .error Err.fieldError

/-- `qs.filter(**{'%s__%s' % (name, lookup): value})` with a single keyword. -/
def qsFilter (qs : List Item) (name lookup : String) (v : Value) : Except Err (List Item) :=
  qsFilterKw qs [(name, lookup, v)]

/-- `Filter.filter(self, qs, value)`: if `value` is a list/tuple it is a
`(value, lookupName)` pair — `value[1]` (an `IndexError` on sequences shorter than
two) names the lookup, falling back to `'exact'` when it stringifies to the empty
string; otherwise the configured `lookup_type` is the lookup.  A truthy value
filters the queryset, a falsy one returns it unchanged. -/
def Filter.filter (name lookup_type : String) (qs : List Item) (value : Value) :
    Except Err (List Item) :=
  match value with
  | .list (v0 :: v1 :: _) =>
    let lookup := pyStr v1
    let lookup := if lookup = "" then "exact" else lookup
    if truthy v0 then qsFilter qs name lookup v0 else .ok qs
  | .list _ => .error Err.indexError
  | _ =>
    if truthy value then qsFilter qs name lookup_type value else .ok qs

/-- `BooleanFilter.filter(self, qs, value)`: filters with the bare attribute keyword
(the store's default `exact` operator) whenever `value is not None` — in particular
for `False` and for the empty string. -/
def BooleanFilter.filter (name : String) (qs : List Item) (value : Value) :
    Except Err (List Item) :=
  if value = Value.null then .ok qs
  else qsFilterKw qs [(name, "exact", value)]

/-- View a value as the Python sequence `len()`/iteration sees it: a list is itself,
a string is its characters; other values are not sequences. -/
def seqItems : Value → Option (List Value)
  | .list vs => some vs
  | .str s => some (s.data.map (fun c => Value.str (String.mk [c])))
  | _ => none

/-- The predicate of the `Q()`-fold in `MultipleChoiceFilter.filter`:
`q = Q(); for v in value: q |= Q(**{self.name: v})`.  An empty fold is the empty
`Q()`, which constrains nothing (matches every row); otherwise a row matches when
its attribute equals any selected value. -/
def orQ (name : String) (vs : List Value) (it : Item) : Bool :=
  vs.isEmpty || vs.any (fun v => pyEq (getAttr it name) v)

/-- `MultipleChoiceFilter.filter(self, qs, value)`: `value = value or ()`; if the
number of selected values equals the number of the resolved field's choices the
queryset is returned unchanged; otherwise the per-value equality predicates are
OR-combined and the result deduplicated (`.distinct()`).  `choices` stands for
`list(self.field.choices)`. -/
def MultipleChoiceFilter.filter (name : String) (choices : List (Value × Value))
    (qs : List Item) (value : Value) : Except Err (List Item) :=
  let value := if truthy value then value else Value.list []
  match seqItems value with
  | none => .error Err.typeError
  | some vs =>
    if vs.length = choices.length then .ok qs
    else .ok ((qs.filter (fun it => orQ name vs it)).dedup)

/-- `RangeFilter.filter(self, qs, value)`: the parsed range value is a slice-like
`(start, stop)` object or `None`; a present value builds one inclusive
`'%s__range'` predicate from both bounds. -/
def RangeFilter.filter (name : String) (qs : List Item)
    (value : Option (Value × Value)) : Except Err (List Item) :=
  match value with
  | some v => qsFilter qs name "range" (Value.list [v.1, v.2])
  | none => .ok qs

/-- The key used to index `DateRangeFilter.options`: `int(value)` on success, the
`''` key on `ValueError`/`TypeError`. -/
def DateRangeFilter.filterKey (value : Value) : Value :=
  match pyInt value with
  | .ok n => Value.int n
  | .error _ => Value.str ""

/-- `DateRangeFilter.options`: the rolling date buckets, each a label plus a rule
over `(qs, name)`.  `datetime.today()` is the explicit `today` parameter; the `''`
bucket is `qs.all()` (the identity). -/
def DateRangeFilter.options (today : Date) :
    List (Value × (String × (List Item → String → Except Err (List Item)))) :=
  [ (Value.str "", ("Any Date", fun qs _ => .ok qs)),
    (Value.int 1, ("Today", fun qs name =>
      qsFilterKw qs [(name, "year", Value.int today.year),
                     (name, "month", Value.int today.month),
                     (name, "day", Value.int today.day)])),
    (Value.int 2, ("Past 7 days", fun qs name =>
      qsFilterKw qs [(name, "gte", Value.str (isoOfDate (dateAddDays today (-7)))),
                     (name, "lt", Value.str (isoOfDate (dateAddDays today 1)))])),
    (Value.int 3, ("This month", fun qs name =>
      qsFilterKw qs [(name, "year", Value.int today.year),
                     (name, "month", Value.int today.month)])),
    (Value.int 4, ("This year", fun qs name =>
      qsFilterKw qs [(name, "year", Value.int today.year)])) ]

/-- `DateRangeFilter.filter(self, qs, value)`: convert `value` with `int(...)`,
falling back to the `''` key on `ValueError`/`TypeError` only; then index the
options dict — an integer that is not a bucket key raises `KeyError` — and run the
bucket's rule on `(qs, self.name)`. -/
def DateRangeFilter.filter (today : Date) (name : String) (qs : List Item)
    (value : Value) : Except Err (List Item) :=
  match (DateRangeFilter.options today).find?
      (fun p => p.1 == DateRangeFilter.filterKey value) with
  | some p => p.2.2 qs name
  | none => .error Err.keyError

/-- `' '.join(...)` as the source applies it to the selected tag list. -/
def joinSpace : List String → String
  | [] => ""
  | [s] => s
  | s :: rest => s ++ " " ++ joinSpace rest

/-- A list of values that are all strings, extracted; `none` when some element is
not a string (Python `' '.join` raises `TypeError` there). -/
def asStrList : List Value → Option (List String)
  | [] => some []
  | .str s :: rest => (asStrList rest).map (fun l => s :: l)
  | _ => none

/-- The candidate row's materialized tag set, `q.get_taggroup(self.name)`: the
model-side collaborator returning the row's discrete tag tokens, embedded as the
row's attribute holding a list of strings. -/
def tagGroup (it : Item) (name : String) : List String :=
  match getAttr it name with
  | .list vs => vs.filterMap (fun v => match v with | .str s => some s | _ => none)
  | _ => []

/-- `TagFilter.filter(self, qs, value)`: joins the selected tags with spaces; when
the joined string is truthy, keeps exactly the rows whose tag set contains every
selected tag (`tags.issubset(q_tags)`); when it is falsy the queryset is returned
unchanged.  A `None` selection raises `TypeError` inside `' '.join`.  The
`qs.model.tagged.with_all` branch delegates to the external django-tagging
collaborator, whose contract (spec section 6, `matchAllTags`) is the same
AND-across-tags matching as this local fallback. -/
def TagFilter.filter (name : String) (qs : List Item) (value : Value) :
    Except Err (List Item) :=
  match value with
  | .list vs =>
    match asStrList vs with
    | none => .error Err.typeError
    | some tags =>
      if joinSpace tags = "" then .ok qs
      else .ok (qs.filter (fun q => tags.all (fun t => (tagGroup q name).contains t)))
  | .str s =>
    let tags := s.data.map (fun c => String.mk [c])
    if joinSpace tags = "" then .ok qs
    else .ok (qs.filter (fun q => tags.all (fun t => (tagGroup q name).contains t)))
  | _ => .error Err.typeError

/-- Modelled from the spec: `LookupTypeField` lives in `django_filters/fields.py`,
which is not under `src/`.  Spec section 4.2: parsing a `(value, operatorName)` pair
validates `operatorName` against the allowed operator set, defaulting to `exact`
when it is empty; an unknown operator is a validation error, never silently
accepted or replaced. -/
def LookupTypeField.clean (allowed : List String) (v : Value) (op : String) :
    Except Err (Value × String) :=
  if op = "" then .ok (v, "exact")
  else if allowed.contains op then .ok (v, op)
  else .error Err.validationError

/-- The `lookup_type` configuration of a filter: Python `None` (all operators), a
single fixed operator string, or an explicit list/tuple of operators. -/
inductive LookupKind where
  | pynone
  | single (lt : String)
  | multi (lts : List String)
deriving DecidableEq

/-- A resolved form field, recording the construction inputs the engine supplies:
`field_class(required=..., label=..., **extra)` for the plain case, and the
`LookupTypeField` wrapper with its `(operator, operator)` choice list.  Widgets and
other presentation options are out of the engine's scope (spec section 1). -/
inductive Field where
  | plain (required : Bool) (label : Option String) (choices : List (Value × Value))
  | lookupWrapped (inner : Field) (lookups : List (String × String))
      (required : Bool) (label : Option String)
deriving DecidableEq

/-- The mutable per-instance state of a `Filter` object: its configuration plus the
`_field` memo slot (`extra['choices']` is the one `extra` entry the engine itself
reads and writes). -/
structure FilterState where
  name : String
  label : Option String
  lookupKind : LookupKind
  required : Bool
  choices : Option (List (Value × Value))
  fieldMemo : Option Field
deriving DecidableEq

/-- The inner field handed to `LookupTypeField`: built without the label, as in the
source. -/
def innerField (s : FilterState) : Field :=
  .plain s.required none (s.choices.getD [])

/-- The field construction inside `Filter.field`: `lookup_type` of `None` or a
list/tuple yields a `LookupTypeField` over the (filtered) sorted vocabulary,
otherwise the plain field class is instantiated. -/
def buildField (s : FilterState) : Field :=
  match s.lookupKind with
  | .pynone =>
    .lookupWrapped (innerField s) (LOOKUP_TYPES.map (fun x => (x, x))) s.required s.label
  | .multi l =>
    .lookupWrapped (innerField s)
      ((LOOKUP_TYPES.filter (fun x => l.contains x)).map (fun x => (x, x)))
      s.required s.label
  | .single _ => .plain s.required s.label (s.choices.getD [])

/-- The `Filter.field` property: build and store `self._field` on first access
(`if not hasattr(self, '_field')`), return the memo afterwards.  Returns the
updated instance state together with the field. -/
def Filter.fieldAccess (s : FilterState) : FilterState × Field :=
  match s.fieldMemo with
  | some f => (s, f)
  | none =>
    let f := buildField s
    ({ s with fieldMemo := some f }, f)

/-- The `AllValuesFilter.field` property: on every access, re-read the live store's
distinct sorted values of the target attribute
(`self.model._default_manager.distinct().order_by(self.name).values_list(...)`,
the collaborator's `distinctSorted` of spec section 6, here the `distinctSorted`
argument), write them into `self.extra['choices']`, then defer to the base
property. -/
def AllValuesFilter.fieldAccess (distinctSorted : String → List Value)
    (s : FilterState) : FilterState × Field :=
  let choices := (distinctSorted s.name).map (fun o => (o, o))
  Filter.fieldAccess { s with choices := some choices }

/-- The choice list a resolved field offers (for the wrapped case, the inner
field's). -/
def Field.choicesOf : Field → List (Value × Value)
  | .plain _ _ c => c
  | .lookupWrapped inner _ _ _ => inner.choicesOf

/-- Follows the spec's words for claim C4 (spec sections 4.4 and 8), for comparison
with `MultipleChoiceFilter.filter`: if the *set* of selected values has the same
size as the available choice set the collection is returned unchanged; otherwise
the collection is filtered by the logical OR of one equality predicate per
selected value and deduplicated. -/
def MultipleChoiceFilter.claimedFilter (name : String) (choices : List (Value × Value))
    (qs : List Item) (value : List Value) : List Item :=
  if value.dedup.length = choices.length then qs
  else (qs.filter (fun it => value.any (fun v => pyEq (getAttr it name) v))).dedup

/-! ## Helper lemmas -/

/-- A single-keyword store filter with a vocabulary operator keeps the matching
rows. -/
theorem qsFilter_known {lookup : String} (h : LOOKUP_TYPES.contains lookup = true)
    (qs : List Item) (name : String) (v : Value) :
    qsFilter qs name lookup v =
      .ok (qs.filter (fun it => applyLookup lookup (getAttr it name) v)) := by
  simp only [qsFilter, qsFilterKw, List.all_cons, List.all_nil, h, Bool.and_true, if_true,
    Bool.true_and]

/-- `' '.join` of a nonempty list whose head is a nonempty string is nonempty. -/
theorem joinSpace_ne_empty {t : String} {rest : List String} (h : t ≠ "") :
    joinSpace (t :: rest) ≠ "" := by
  cases rest with
  | nil => simpa [joinSpace] using h
  | cons s l =>
    simp only [joinSpace]
    intro hcontra
    have hlen := congrArg String.length hcontra
    simp [String.length_append] at hlen
    exact absurd hlen.1.2 (by decide)

/-- `asStrList` inverts the embedding of a string list into values. -/
theorem asStrList_map_str (tags : List String) :
    asStrList (tags.map Value.str) = some tags := by
  induction tags with
  | nil => rfl
  | cons t rest ih => simp [asStrList, ih]

/-- The `exact` lookup is the store's value equality. -/
theorem applyLookup_exact (a b : Value) : applyLookup "exact" a b = pyEq a b := rfl

/-- The `range` lookup with a two-element bound list is the inclusive interval
test. -/
theorem applyLookup_range (attr lo hi : Value) :
    applyLookup "range" attr (Value.list [lo, hi]) = (vle lo attr && vle attr hi) := rfl

/-- A degenerate interval `[a, a]` matches exactly the attribute value `a`. -/
theorem applyLookup_range_point (a : Int) (v : Value) :
    applyLookup "range" v (Value.list [Value.int a, Value.int a]) = true ↔ v = Value.int a := by
  cases v <;> simp [applyLookup_range, vle]
  omega

/-- An empty-or-falsy selection makes `MultipleChoiceFilter.filter` a no-op on
duplicate-free collections. -/
theorem mcf_empty_selection (name : String) (choices : List (Value × Value))
    (qs : List Item) (h : qs.Nodup) :
    MultipleChoiceFilter.filter name choices qs (Value.list []) = .ok qs := by
  show (if ([] : List Value).length = choices.length then Except.ok qs
    else .ok ((qs.filter (fun it => orQ name [] it)).dedup)) = .ok qs
  cases choices with
  | nil => simp
  | cons c cs =>
    have : ¬ ([] : List Value).length = (c :: cs).length := by simp
    rw [if_neg this]
    have : (qs.filter (fun it => orQ name [] it)) = qs := by
      simp [orQ]
    rw [this, List.dedup_eq_self.mpr h]

/-! ## The claims -/

/-- C1, counterexample: the base filter applied to an *empty collection* raw value
does not return the collection unchanged — `value[1]` raises `IndexError` on the
empty list, so the no-op law fails as stated. -/
theorem c1_counterexample :
    Filter.filter "x" "exact" [[("x", Value.int 1)]] (Value.list [])
        = .error Err.indexError ∧
      Filter.filter "x" "exact" [[("x", Value.int 1)]] (Value.list [])
        ≠ .ok [[("x", Value.int 1)]] := by decide

/-- C1, amended: each filter variant is a no-op on the empty values of the input
shape its field produces (`None`/`''` for the base filter, `None` for the boolean
filter, `None`/`''`/`[]` for the multi-value filter on duplicate-free collections,
an absent range, `None`/`''` for the date-bucket filter, `[]`/`''` for the tag
filter); an empty value of an unexpected shape raises instead of no-opping: an
empty sequence on the base filter's pair path raises `IndexError`, and `None` on
the tag filter raises `TypeError`. -/
theorem c1_amended (name lt : String) (qs : List Item)
    (choices : List (Value × Value)) (today : Date) :
    Filter.filter name lt qs Value.null = .ok qs ∧
    Filter.filter name lt qs (Value.str "") = .ok qs ∧
    BooleanFilter.filter name qs Value.null = .ok qs ∧
    (qs.Nodup →
      MultipleChoiceFilter.filter name choices qs Value.null = .ok qs ∧
      MultipleChoiceFilter.filter name choices qs (Value.str "") = .ok qs ∧
      MultipleChoiceFilter.filter name choices qs (Value.list []) = .ok qs) ∧
    RangeFilter.filter name qs none = .ok qs ∧
    DateRangeFilter.filter today name qs Value.null = .ok qs ∧
    DateRangeFilter.filter today name qs (Value.str "") = .ok qs ∧
    TagFilter.filter name qs (Value.list []) = .ok qs ∧
    TagFilter.filter name qs (Value.str "") = .ok qs ∧
    Filter.filter name lt qs (Value.list []) = .error Err.indexError ∧
    TagFilter.filter name qs Value.null = .error Err.typeError := by
  refine ⟨rfl, rfl, rfl, ?_, rfl, rfl, rfl, rfl, rfl, rfl, rfl⟩
  intro h
  exact ⟨mcf_empty_selection name choices qs h, mcf_empty_selection name choices qs h,
    mcf_empty_selection name choices qs h⟩

/-- C1, witness: the amended no-op law evaluated on a concrete collection. -/
theorem c1_witness :
    MultipleChoiceFilter.filter "x" [(Value.str "a", Value.str "a")]
        [[("x", Value.str "b")]] Value.null = .ok [[("x", Value.str "b")]] ∧
      Filter.filter "x" "exact" [[("x", Value.str "b")]] Value.null
        = .ok [[("x", Value.str "b")]] :=
  ⟨((c1_amended "x" "exact" [[("x", Value.str "b")]] [(Value.str "a", Value.str "a")]
      ⟨2024, 3, 15⟩).2.2.2.1 (by decide)).1,
   (c1_amended "x" "exact" [[("x", Value.str "b")]] [(Value.str "a", Value.str "a")]
      ⟨2024, 3, 15⟩).1⟩

/-- C2: the dynamic-choice filter's first access builds (and memoizes) the field
from the store's then-current distinct values; after the store's distinct values
change, a second field access still serves the field built from the *old* values
(first conjunct), although an access from a fresh instance against the new store
would offer the new choice set (second conjunct).  This contradicts the claimed
no-stale-caching behaviour: the recomputation of `extra['choices']` on later
accesses is dead because the base property returns the memoized `_field`. -/
theorem c2_stale_choices :
    ((AllValuesFilter.fieldAccess (fun _ => [Value.int 1, Value.int 2])
        (AllValuesFilter.fieldAccess (fun _ => [Value.int 1])
          ⟨"x", none, .single "exact", false, none, none⟩).1).2).choicesOf
      = [(Value.int 1, Value.int 1)] ∧
    ((AllValuesFilter.fieldAccess (fun _ => [Value.int 1, Value.int 2])
        ⟨"x", none, .single "exact", false, none, none⟩).2).choicesOf
      = [(Value.int 1, Value.int 1), (Value.int 2, Value.int 2)] := by decide

/-- C3, counterexample: a raw value that parses to an integer outside the bucket
keys (`"5"`) raises `KeyError` instead of falling back to the "any" bucket. -/
theorem c3_counterexample :
    DateRangeFilter.filter ⟨2024, 3, 15⟩ "added"
      [[("added", Value.date 2024 3 15)]] (Value.str "5") = .error Err.keyError := by
  decide

/-- C3, amended: the rolling date-bucket filter falls back to the "any" bucket
(identity) exactly when `int(value)` fails (`ValueError`/`TypeError`); a
successfully parsed integer outside the recognized keys raises `KeyError`
instead. -/
theorem c3_amended (today : Date) (name : String) (qs : List Item) (v : Value)
    (e : Err) (h : pyInt v = .error e) :
    DateRangeFilter.filter today name qs v = .ok qs := by
  unfold DateRangeFilter.filter DateRangeFilter.filterKey
  rw [h]
  rfl

/-- C3, witness: the amended fallback evaluated at `None`. -/
theorem c3_witness :
    DateRangeFilter.filter ⟨2024, 3, 15⟩ "added"
      [[("added", Value.date 2024 3 15)]] Value.null
      = .ok [[("added", Value.date 2024 3 15)]] :=
  c3_amended ⟨2024, 3, 15⟩ "added" [[("added", Value.date 2024 3 15)]] Value.null
    Err.typeError (by decide)

/-- C4, counterexample: with available choices `{a, b}` and the duplicated
selection `[a, a]`, the code's length-based test short-circuits (2 = 2) and
returns the collection unchanged, while the claim's set-based reading (set size 1)
requires the OR-filtered, deduplicated result — and the two differ. -/
theorem c4_counterexample :
    MultipleChoiceFilter.filter "x"
        [(Value.str "a", Value.str "a"), (Value.str "b", Value.str "b")]
        [[("x", Value.str "a")], [("x", Value.str "b")]]
        (Value.list [Value.str "a", Value.str "a"])
      = .ok [[("x", Value.str "a")], [("x", Value.str "b")]] ∧
    MultipleChoiceFilter.claimedFilter "x"
        [(Value.str "a", Value.str "a"), (Value.str "b", Value.str "b")]
        [[("x", Value.str "a")], [("x", Value.str "b")]]
        [Value.str "a", Value.str "a"]
      = [[("x", Value.str "a")]] ∧
    ([[("x", Value.str "a")], [("x", Value.str "b")]] : List Item)
      ≠ [[("x", Value.str "a")]] := by decide

/-- C4, amended: for a duplicate-free, nonempty selection the claim holds as
stated — the collection is returned unchanged exactly when the number of selected
values equals the number of available choices, and otherwise equals the input
filtered by the OR of one equality predicate per selected value, deduplicated.
(With duplicates the code compares the selection's *length*, not its set size, to
the choice count.) -/
theorem c4_amended (name : String) (choices : List (Value × Value)) (qs : List Item)
    (value : List Value) (hnd : value.Nodup) (hne : value ≠ []) :
    MultipleChoiceFilter.filter name choices qs (Value.list value)
      = .ok (MultipleChoiceFilter.claimedFilter name choices qs value) := by
  have hie : value.isEmpty = false := by
    cases value with
    | nil => exact absurd rfl hne
    | cons _ _ => rfl
  unfold MultipleChoiceFilter.filter MultipleChoiceFilter.claimedFilter
  simp only [truthy, hie, Bool.not_false, if_true, seqItems,
    List.dedup_eq_self.mpr hnd]
  by_cases hl : value.length = choices.length <;> simp [hl, orQ, hie]

/-- C4, witness: the amended equivalence evaluated on a concrete selection. -/
theorem c4_witness :
    MultipleChoiceFilter.filter "x"
        [(Value.str "a", Value.str "a"), (Value.str "b", Value.str "b")]
        [[("x", Value.str "a")], [("x", Value.str "b")]]
        (Value.list [Value.str "a"])
      = .ok (MultipleChoiceFilter.claimedFilter "x"
        [(Value.str "a", Value.str "a"), (Value.str "b", Value.str "b")]
        [[("x", Value.str "a")], [("x", Value.str "b")]]
        [Value.str "a"]) :=
  c4_amended "x" _ _ [Value.str "a"] (by decide) (by decide)

/-- C5: for a `(value, operatorName)` pair the supplied operator name is the
lookup actually applied — a nonempty operator name is passed verbatim to the
store's filter as the lookup (first conjunct); the empty operator falls back to
`exact`, behaving exactly like the bare scalar under `exact` (second conjunct);
the configured default operator is never consulted for pair input (third
conjunct: the result is independent of the configured `lookup_type`); a bare
scalar uses the configured default operator (fourth conjunct). -/
theorem c5_operator_pair (name lt lt2 : String) (qs : List Item) (v : Value)
    (op : String) (h : v.isList = false) :
    (op ≠ "" → Filter.filter name lt qs (Value.list [v, Value.str op])
        = (if truthy v then qsFilter qs name op v else .ok qs)) ∧
      Filter.filter name lt qs (Value.list [v, Value.str ""])
        = Filter.filter name "exact" qs v ∧
      Filter.filter name lt qs (Value.list [v, Value.str op])
        = Filter.filter name lt2 qs (Value.list [v, Value.str op]) ∧
      Filter.filter name lt qs v
        = (if truthy v then qsFilter qs name lt v else .ok qs) := by
  refine ⟨?_, ?_, rfl, ?_⟩
  · intro hne
    simp [Filter.filter, pyStr, hne]
  · cases v <;> simp_all [Filter.filter, pyStr, Value.isList]
  · cases v <;> simp_all [Filter.filter, Value.isList]

/-- C5, witness: a concrete pair carrying the nonempty operator `"gte"` filters
the store with the `gte` lookup (not the configured `exact`), and a concrete pair
with an empty operator name equals the scalar `exact` run. -/
theorem c5_witness :
    Filter.filter "x" "exact" [[("x", Value.int 5)]]
        (Value.list [Value.int 3, Value.str "gte"])
      = qsFilter [[("x", Value.int 5)]] "x" "gte" (Value.int 3) ∧
    Filter.filter "x" "gte" [[("x", Value.str "v")]]
        (Value.list [Value.str "v", Value.str ""])
      = Filter.filter "x" "exact" [[("x", Value.str "v")]] (Value.str "v") :=
  ⟨(c5_operator_pair "x" "exact" "lt" [[("x", Value.int 5)]] (Value.int 3) "gte"
      rfl).1 (by decide),
   (c5_operator_pair "x" "gte" "lt" [[("x", Value.str "v")]] (Value.str "v") "gt"
      rfl).2.1⟩

/-- C6: an operator name outside the statically known vocabulary is signaled as an
error, never silently accepted or replaced: the store rejects it when the base
filter forwards it (`FieldError`, first conjunct), and the wrapping lookup-type
field rejects it at parse time (`ValidationError`, second conjunct). -/
theorem c6_unknown_operator (name lt op : String) (qs : List Item) (v : Value)
    (hop : LOOKUP_TYPES.contains op = false) (hne : op ≠ "") (hv : truthy v = true) :
    Filter.filter name lt qs (Value.list [v, Value.str op]) = .error Err.fieldError ∧
      LookupTypeField.clean LOOKUP_TYPES v op = .error Err.validationError := by
  have hop' : op ∉ LOOKUP_TYPES := by simpa using hop
  constructor
  · simp [Filter.filter, pyStr, hne, hv, qsFilter, qsFilterKw, hop']
  · simp [LookupTypeField.clean, hne, hop']

/-- C6, witness: the unknown operator `"unknownOp"` is rejected on a concrete
input. -/
theorem c6_witness :
    Filter.filter "x" "exact" [[("x", Value.int 1)]]
        (Value.list [Value.str "v", Value.str "unknownOp"]) = .error Err.fieldError ∧
      LookupTypeField.clean LOOKUP_TYPES (Value.str "v") "unknownOp"
        = .error Err.validationError :=
  c6_unknown_operator "x" "exact" "unknownOp" [[("x", Value.int 1)]] (Value.str "v")
    (by decide) (by decide) (by decide)

/-- C7: the range filter with present integer bounds `(a, b)` selects exactly the
rows whose attribute is an integer in the inclusive interval `[a, b]` — the result
is a sub-collection of the input (second conjunct), a row with integer attribute
`x` is kept iff `a ≤ x ≤ b` (third conjunct), and for the degenerate range
`(a, a)` a row is kept iff its attribute equals `a` exactly (fourth conjunct). -/
theorem c7_range (name : String) (a b : Int) (qs : List Item) :
    ∃ ys, RangeFilter.filter name qs (some (Value.int a, Value.int b)) = .ok ys ∧
      (∀ it, it ∈ ys → it ∈ qs) ∧
      (∀ it x, getAttr it name = Value.int x → (it ∈ ys ↔ it ∈ qs ∧ a ≤ x ∧ x ≤ b)) ∧
      (b = a → ∀ it, it ∈ ys ↔ it ∈ qs ∧ getAttr it name = Value.int a) := by
  have hcont : LOOKUP_TYPES.contains "range" = true := by decide
  refine ⟨qs.filter (fun it =>
      applyLookup "range" (getAttr it name) (Value.list [Value.int a, Value.int b])),
    qsFilter_known hcont qs name _, ?_, ?_, ?_⟩
  · intro it hit
    exact (List.mem_filter.mp hit).1
  · intro it x hx
    rw [List.mem_filter]
    simp [applyLookup_range, hx, vle]
  · rintro rfl it
    rw [List.mem_filter]
    constructor
    · rintro ⟨h1, h2⟩
      exact ⟨h1, (applyLookup_range_point b (getAttr it name)).mp h2⟩
    · rintro ⟨h1, h2⟩
      exact ⟨h1, (applyLookup_range_point b (getAttr it name)).mpr h2⟩

/-- C7, witness: the spec's end-to-end example — `[{x:1},{x:5},{x:10}]` with range
`(3, 10)` keeps `{x:5}`. -/
theorem c7_witness :
    ∃ ys, RangeFilter.filter "x"
        [[("x", Value.int 1)], [("x", Value.int 5)], [("x", Value.int 10)]]
        (some (Value.int 3, Value.int 10)) = .ok ys ∧
      [("x", Value.int 5)] ∈ ys := by
  obtain ⟨ys, h1, _, h3, _⟩ := c7_range "x" 3 10
    [[("x", Value.int 1)], [("x", Value.int 5)], [("x", Value.int 10)]]
  exact ⟨ys, h1, (h3 [("x", Value.int 5)] 5 (by decide)).mpr
    ⟨by decide, by decide, by decide⟩⟩

/-- C8: with a nonempty selection of (nonempty) tag tokens, the tag filter keeps a
row iff every selected tag is in the row's tag set — AND/subset-containment
semantics, not OR. -/
theorem c8_tag_and (name : String) (qs : List Item) (tags : List String)
    (hne : tags ≠ []) (hok : ∀ t ∈ tags, t ≠ "") :
    ∃ ys, TagFilter.filter name qs (Value.list (tags.map Value.str)) = .ok ys ∧
      ∀ it, it ∈ ys ↔ it ∈ qs ∧ ∀ t ∈ tags, t ∈ tagGroup it name := by
  cases tags with
  | nil => exact absurd rfl hne
  | cons t rest =>
    have hj : joinSpace (t :: rest) ≠ "" :=
      joinSpace_ne_empty (hok t (by simp))
    refine ⟨qs.filter (fun q =>
        (t :: rest).all (fun s => (tagGroup q name).contains s)), ?_, ?_⟩
    · show TagFilter.filter name qs (Value.list ((t :: rest).map Value.str)) = _
      simp only [TagFilter.filter, asStrList_map_str, if_neg hj]
    · intro it
      rw [List.mem_filter]
      simp [List.all_eq_true]

/-- C8, witness: the claim's example — a row tagged `{a, b, c}` is kept for the
selection `{a, b}` and dropped for the selection `{a, d}`. -/
theorem c8_witness :
    (∃ ys, TagFilter.filter "t"
        [[("t", Value.list [Value.str "a", Value.str "b", Value.str "c"])]]
        (Value.list (["a", "b"].map Value.str)) = .ok ys ∧
      [("t", Value.list [Value.str "a", Value.str "b", Value.str "c"])] ∈ ys) ∧
    (∃ ys, TagFilter.filter "t"
        [[("t", Value.list [Value.str "a", Value.str "b", Value.str "c"])]]
        (Value.list (["a", "d"].map Value.str)) = .ok ys ∧
      [("t", Value.list [Value.str "a", Value.str "b", Value.str "c"])] ∉ ys) := by
  constructor
  · obtain ⟨ys, h1, h2⟩ := c8_tag_and "t"
      [[("t", Value.list [Value.str "a", Value.str "b", Value.str "c"])]]
      ["a", "b"] (by decide) (by decide)
    exact ⟨ys, h1, (h2 _).mpr ⟨by decide, by decide⟩⟩
  · obtain ⟨ys, h1, h2⟩ := c8_tag_and "t"
      [[("t", Value.list [Value.str "a", Value.str "b", Value.str "c"])]]
      ["a", "d"] (by decide) (by decide)
    refine ⟨ys, h1, fun hmem => ?_⟩
    have := ((h2 _).mp hmem).2 "d" (by decide)
    revert this
    decide

/-- C9: the resolved field is computed on first access and memoized per instance:
a second access returns the identical field and leaves the state unchanged (first
two conjuncts), after any access the memo holds exactly the returned field (third
conjunct), and even the dynamic-choice override — which rewrites
`extra['choices']` on every access — returns the identical resolved field on later
accesses regardless of how the store has changed in between (fourth conjunct). -/
theorem c9_field_memoized (s : FilterState) (d1 d2 : String → List Value) :
    (Filter.fieldAccess (Filter.fieldAccess s).1).2 = (Filter.fieldAccess s).2 ∧
    (Filter.fieldAccess (Filter.fieldAccess s).1).1 = (Filter.fieldAccess s).1 ∧
    (Filter.fieldAccess s).1.fieldMemo = some (Filter.fieldAccess s).2 ∧
    (AllValuesFilter.fieldAccess d2 (AllValuesFilter.fieldAccess d1 s).1).2
      = (AllValuesFilter.fieldAccess d1 s).2 := by
  cases h : s.fieldMemo <;>
    simp [Filter.fieldAccess, AllValuesFilter.fieldAccess, h]

/-- C10: the tri-state boolean filter is a no-op (for every collection) exactly
when the value is null — in particular `False` is a real value and builds the
equality predicate on the target attribute. -/
theorem c10_boolean (name : String) (v : Value) :
    ((∀ qs : List Item, BooleanFilter.filter name qs v = .ok qs) ↔ v = Value.null) ∧
    (∀ qs : List Item, BooleanFilter.filter name qs (Value.bool false)
      = .ok (qs.filter (fun it => pyEq (getAttr it name) (Value.bool false)))) := by
  constructor
  · constructor
    · intro hall
      by_contra hv
      have hex : "exact" ∈ LOOKUP_TYPES := by decide
      have h1 := hall [[(name, Value.null)]]
      simp only [BooleanFilter.filter, if_neg hv, qsFilterKw] at h1
      simp [applyLookup_exact, getAttr, pyEq, Ne.symm hv, hex] at h1
    · rintro rfl qs
      rfl
  · intro qs
    have hex : "exact" ∈ LOOKUP_TYPES := by decide
    simp only [BooleanFilter.filter, if_neg (by decide : ¬ Value.bool false = Value.null),
      qsFilterKw]
    simp [applyLookup_exact, hex]

/-- C10, witness: the no-op direction at null and the `False` predicate on a
concrete collection. -/
theorem c10_witness :
    BooleanFilter.filter "x" [[("x", Value.null)]] Value.null
        = .ok [[("x", Value.null)]] ∧
      BooleanFilter.filter "x" [[("x", Value.null)]] (Value.bool false)
        = .ok (([[("x", Value.null)]] : List Item).filter
            (fun it => pyEq (getAttr it "x") (Value.bool false))) :=
  ⟨(c10_boolean "x" Value.null).1.mpr rfl [[("x", Value.null)]],
   (c10_boolean "x" Value.null).2 [[("x", Value.null)]]⟩

end DF
